import Mathlib

/-!
Shallow embedding of `src/nettside/web_visualization.py`: the date
normalizer `fix_dates`, the loader `get_data`, and the chart builders
`plot_reported_cases`, `plot_cumulative_cases` and `plot_both`.

Modelling conventions:
* Python strings are Lean `String`s; `str.split` on a one-character
  separator is `pySplit` below (faithful to CPython semantics,
  including the `[""]` result on the empty string and empty fields
  between adjacent separators).
* Python exceptions are made explicit with `Except PyError`:
  `PyError.regionNotFound` models the `FileNotFoundError` raised by
  `pandas.read_csv` on a missing backing file (the spec's
  `RegionNotFoundError`), and `PyError.indexError` models Python's
  `IndexError` (out-of-range `iloc` / list access).
* Calendar dates inside datasets and resolved bounds are abstracted as
  `Nat` codes ordered like the timestamps pandas produces.  The
  user-date plumbing (`fix_dates`, pandas string-to-timestamp parsing,
  and the regex on lines 76-78 that strips the `00:00:00` timestamp
  before the title is built) is modelled by handing the plot functions
  already-canonical dates, on which the regex step is the identity;
  `fix_dates` itself is embedded separately at the string level.
* An `alt.Chart` is the record `Chart`.  The title string
  `'Oversikt ... i ' + county + ' fra ' + start + ' til ' + end`
  is kept component-wise: fields `county`, `t_start`, `t_end` are the
  three variable components spliced into the title.
-/

namespace WebViz

/-- Error values for the Python exceptions the embedded functions can raise. -/
inductive PyError where
  | regionNotFound
  | indexError
deriving DecidableEq

/-- Python `s.split(sep)` for a one-character separator, acting on the
character list of the string: `[[]]` on the empty list, and empty
fields are kept between adjacent separators, as in CPython. -/
def pySplit (sep : Char) : List Char → List (List Char)
  | [] => [[]]
  | c :: cs =>
    match pySplit sep cs with
    | [] => [[]]
    | g :: gs => if c = sep then [] :: g :: gs else (c :: g) :: gs

/-- Embedding of `fix_dates` (web_visualization.py lines 19-31): an input
containing `-` is returned unchanged; otherwise the input is split on
`/` and rebuilt as `fields[2]-fields[1]-fields[0]`, where accessing
`date_array[2]` on fewer than three fields raises `IndexError`. -/
def fix_dates (dmy_date : String) : Except PyError String :=
  if '-' ∈ dmy_date.data then
    .ok dmy_date
  else
    match pySplit '/' dmy_date.data with
    | a0 :: a1 :: a2 :: _ => .ok ⟨a2 ++ ('-' :: (a1 ++ ('-' :: a0)))⟩
    | _ => .error .indexError

/-- Value of a decimal digit character. -/
def digitVal (c : Char) : Nat := c.toNat - '0'.toNat

/-- Gregorian leap-year test. -/
def isLeap (y : Nat) : Bool := y % 4 == 0 && (y % 100 != 0 || y % 400 == 0)

/-- Number of days in month `m` of year `y` in the Gregorian calendar. -/
def daysInMonth (y m : Nat) : Nat :=
  if m = 2 then (if isLeap y then 29 else 28)
  else if m = 4 ∨ m = 6 ∨ m = 9 ∨ m = 11 then 30
  else 31

/-- Specification-side predicate: a valid ISO `YYYY-MM-DD` calendar date
string, with 4-2-2 digit grouping, month in 1..12 and day within the
month. -/
def validISO (s : String) : Bool :=
  match s.data with
  | [y1, y2, y3, y4, c1, m1, m2, c2, d1, d2] =>
    y1.isDigit && y2.isDigit && y3.isDigit && y4.isDigit &&
    m1.isDigit && m2.isDigit && d1.isDigit && d2.isDigit &&
    c1 == '-' && c2 == '-' &&
    (let y := 1000 * digitVal y1 + 100 * digitVal y2 + 10 * digitVal y3 + digitVal y4
     let m := 10 * digitVal m1 + digitVal m2
     let d := 10 * digitVal d1 + digitVal d2
     decide (1 ≤ m) && decide (m ≤ 12) && decide (1 ≤ d) && decide (d ≤ daysInMonth y m))
  | _ => false

/-- Specification-side predicate: a valid day-first `DD/MM/YYYY` calendar
date string. -/
def validDayFirst (s : String) : Bool :=
  match s.data with
  | [d1, d2, c1, m1, m2, c2, y1, y2, y3, y4] =>
    d1.isDigit && d2.isDigit && m1.isDigit && m2.isDigit &&
    y1.isDigit && y2.isDigit && y3.isDigit && y4.isDigit &&
    c1 == '/' && c2 == '/' &&
    (let y := 1000 * digitVal y1 + 100 * digitVal y2 + 10 * digitVal y3 + digitVal y4
     let m := 10 * digitVal m1 + digitVal m2
     let d := 10 * digitVal d1 + digitVal d2
     decide (1 ≤ m) && decide (m ≤ 12) && decide (1 ≤ d) && decide (d ≤ daysInMonth y m))
  | _ => false

/-- Reference normalization, written from the spec's words: a ten
character day-first `DD/MM/YYYY` shape is reordered to `YYYY-MM-DD`;
anything else is returned unchanged. -/
def normalize_ref (s : String) : String :=
  match s.data with
  | [d1, d2, _, m1, m2, _, y1, y2, y3, y4] =>
    ⟨[y1, y2, y3, y4, '-', m1, m2, '-', d1, d2]⟩
  | _ => s

theorem pySplit_cons (sep c : Char) (cs : List Char) :
    pySplit sep (c :: cs) =
      match pySplit sep cs with
      | [] => [[]]
      | g :: gs => if c = sep then [] :: g :: gs else (c :: g) :: gs := rfl

theorem pySplit_ne_nil (sep : Char) (l : List Char) : pySplit sep l ≠ [] := by
  cases l with
  | nil => simp [pySplit]
  | cons c cs =>
    rw [pySplit_cons]
    cases hget : pySplit sep cs with
    | nil => simp
    | cons g gs => by_cases hc : c = sep <;> simp [hc]

theorem pySplit_no_sep (sep : Char) (l : List Char) (h : sep ∉ l) :
    pySplit sep l = [l] := by
  induction l with
  | nil => rfl
  | cons c cs ih =>
    rw [List.mem_cons, not_or] at h
    obtain ⟨hc, hcs⟩ := h
    rw [pySplit_cons, ih hcs]
    simp [Ne.symm hc]

theorem pySplit_append (sep : Char) (l1 l2 : List Char) (h : sep ∉ l1) :
    pySplit sep (l1 ++ sep :: l2) = l1 :: pySplit sep l2 := by
  induction l1 with
  | nil =>
    show pySplit sep (sep :: l2) = [] :: pySplit sep l2
    rw [pySplit_cons]
    cases hget : pySplit sep l2 with
    | nil => exact absurd hget (pySplit_ne_nil sep l2)
    | cons g gs => simp
  | cons c cs ih =>
    rw [List.mem_cons, not_or] at h
    obtain ⟨hc, hcs⟩ := h
    show pySplit sep (c :: (cs ++ sep :: l2)) = (c :: cs) :: pySplit sep l2
    rw [pySplit_cons, ih hcs]
    simp [Ne.symm hc]

theorem isDigit_ne_dash {c : Char} (h : c.isDigit = true) : c ≠ '-' := by
  intro he
  rw [he] at h
  exact absurd h (by decide)

theorem isDigit_ne_slash {c : Char} (h : c.isDigit = true) : c ≠ '/' := by
  intro he
  rw [he] at h
  exact absurd h (by decide)

/-- C4 (counterexample). The claim says the invalid calendar date
`"2020-13-40"` makes normalization fail with `MalformedDateError`; the
code has no such error and returns the string unchanged, because it
contains a `-`. -/
theorem fix_dates_invalid_iso_accepted :
    validISO "2020-13-40" = false ∧ validDayFirst "2020-13-40" = false ∧
    fix_dates "2020-13-40" = .ok "2020-13-40" :=
  ⟨by decide, by decide, by rfl⟩

/-- C4 (amended). `fix_dates` performs no calendar validation: it fails,
with `IndexError` rather than any `MalformedDateError`, exactly on
inputs that contain no `-` and split on `/` into fewer than three
fields; every input containing `-` — valid ISO date or not — is
returned unchanged. -/
theorem fix_dates_failure_characterization (s : String) :
    (fix_dates s = .error PyError.indexError ↔
      ('-' ∉ s.data ∧ (pySplit '/' s.data).length < 3)) ∧
    ('-' ∈ s.data → fix_dates s = .ok s) := by
  constructor
  · unfold fix_dates
    by_cases h : '-' ∈ s.data
    · simp [h]
    · rcases hsp : pySplit '/' s.data with _ | ⟨a0, _ | ⟨a1, _ | ⟨a2, rest⟩⟩⟩ <;>
        simp [h, hsp]
  · intro h
    simp [fix_dates, h]

/-- C4 (witness for the amended theorem). -/
theorem fix_dates_failure_characterization_witness :
    '-' ∈ ("2021-05-06" : String).data ∧
    fix_dates "2021-05-06" = .ok "2021-05-06" :=
  ⟨by decide, (fix_dates_failure_characterization "2021-05-06").2 (by decide)⟩

/-- C5. Date normalization agrees with the reference normalization on
all valid inputs: a valid ISO `YYYY-MM-DD` string is returned
unchanged, and a valid day-first `DD/MM/YYYY` string is reordered to
`YYYY-MM-DD`. -/
theorem fix_dates_matches_reference (s : String) :
    (validISO s = true → fix_dates s = .ok s) ∧
    (validDayFirst s = true → fix_dates s = .ok (normalize_ref s)) := by
  constructor
  · intro h
    unfold validISO at h
    split at h
    case h_2 => exact absurd h Bool.false_ne_true
    case h_1 y1 y2 y3 y4 c1 m1 m2 c2 d1 d2 heq =>
      simp only [Bool.and_eq_true, beq_iff_eq] at h
      have hc1 : c1 = '-' := h.1.1.2
      have hmem : '-' ∈ s.data := by
        rw [heq, hc1]
        simp
      simp [fix_dates, hmem]
  · intro h
    unfold validDayFirst at h
    split at h
    case h_2 => exact absurd h Bool.false_ne_true
    case h_1 d1 d2 c1 m1 m2 c2 y1 y2 y3 y4 heq =>
      simp only [Bool.and_eq_true, beq_iff_eq] at h
      obtain ⟨⟨⟨⟨⟨⟨⟨⟨⟨hd1, hd2⟩, hm1⟩, hm2⟩, hy1⟩, hy2⟩, hy3⟩, hy4⟩, hc1⟩, hc2⟩ := h.1
      have hnodash : '-' ∉ s.data := by
        rw [heq, hc1, hc2]
        intro hmem
        rcases List.mem_cons.mp hmem with he | hmem
        · exact isDigit_ne_dash hd1 he.symm
        rcases List.mem_cons.mp hmem with he | hmem
        · exact isDigit_ne_dash hd2 he.symm
        rcases List.mem_cons.mp hmem with he | hmem
        · exact absurd he (by decide)
        rcases List.mem_cons.mp hmem with he | hmem
        · exact isDigit_ne_dash hm1 he.symm
        rcases List.mem_cons.mp hmem with he | hmem
        · exact isDigit_ne_dash hm2 he.symm
        rcases List.mem_cons.mp hmem with he | hmem
        · exact absurd he (by decide)
        rcases List.mem_cons.mp hmem with he | hmem
        · exact isDigit_ne_dash hy1 he.symm
        rcases List.mem_cons.mp hmem with he | hmem
        · exact isDigit_ne_dash hy2 he.symm
        rcases List.mem_cons.mp hmem with he | hmem
        · exact isDigit_ne_dash hy3 he.symm
        rcases List.mem_cons.mp hmem with he | hmem
        · exact isDigit_ne_dash hy4 he.symm
        · exact absurd hmem (List.not_mem_nil _)
      have hshape : s.data = [d1, d2] ++ ('/' :: ([m1, m2] ++ ('/' :: [y1, y2, y3, y4]))) := by
        rw [heq, hc1, hc2]
        rfl
      have hsplit : pySplit '/' s.data = [[d1, d2], [m1, m2], [y1, y2, y3, y4]] := by
        rw [hshape]
        rw [pySplit_append '/' [d1, d2] _ (by
          intro hmem
          rcases List.mem_cons.mp hmem with he | hmem
          · exact isDigit_ne_slash hd1 he.symm
          rcases List.mem_cons.mp hmem with he | hmem
          · exact isDigit_ne_slash hd2 he.symm
          · exact absurd hmem (List.not_mem_nil _))]
        rw [pySplit_append '/' [m1, m2] _ (by
          intro hmem
          rcases List.mem_cons.mp hmem with he | hmem
          · exact isDigit_ne_slash hm1 he.symm
          rcases List.mem_cons.mp hmem with he | hmem
          · exact isDigit_ne_slash hm2 he.symm
          · exact absurd hmem (List.not_mem_nil _))]
        rw [pySplit_no_sep '/' [y1, y2, y3, y4] (by
          intro hmem
          rcases List.mem_cons.mp hmem with he | hmem
          · exact isDigit_ne_slash hy1 he.symm
          rcases List.mem_cons.mp hmem with he | hmem
          · exact isDigit_ne_slash hy2 he.symm
          rcases List.mem_cons.mp hmem with he | hmem
          · exact isDigit_ne_slash hy3 he.symm
          rcases List.mem_cons.mp hmem with he | hmem
          · exact isDigit_ne_slash hy4 he.symm
          · exact absurd hmem (List.not_mem_nil _))]
      unfold fix_dates
      rw [if_neg hnodash, hsplit]
      unfold normalize_ref
      rw [heq]
      rfl

/-- C5 (witness). -/
theorem fix_dates_matches_reference_witness :
    validISO "2020-03-12" = true ∧ fix_dates "2020-03-12" = .ok "2020-03-12" ∧
    validDayFirst "29/03/2020" = true ∧ fix_dates "29/03/2020" = .ok "2020-03-29" := by
  refine ⟨by decide, (fix_dates_matches_reference "2020-03-12").1 (by decide), by decide, ?_⟩
  have h := (fix_dates_matches_reference "29/03/2020").2 (by decide)
  exact h

/-- One row of a region dataset: the date code and the two case-count
columns `Nye tilfeller` (new daily cases) and `Kumulativt antall`
(cumulative cases). -/
structure CaseRecord where
  dato : Nat
  nyeTilfeller : Nat
  kumulativtAntall : Nat
deriving DecidableEq

/-- A loaded region dataset, records in file order. -/
abbrev Dataset := List CaseRecord

/-- The directory of backing files, as an association list from path to
the parsed dataset; a path absent from the list models a missing file. -/
structure FS where
  files : List (String × Dataset)
deriving DecidableEq

/-- Association-list lookup modelling opening a csv file by path. -/
def lookupFile : List (String × Dataset) → String → Option Dataset
  | [], _ => none
  | (k, d) :: rest, p => if k = p then some d else lookupFile rest p

/-- Python `str.lower()`: lowercase the string character by character. -/
def pyLower (s : String) : String := ⟨s.data.map Char.toLower⟩

/-- Backing file path built on line 40:
`os.path.join("data_files_updated", f"antall-meldte-covid-19-{county.lower()}.csv")`. -/
def county_file (county : String) : String :=
  "data_files_updated/antall-meldte-covid-19-" ++ pyLower county ++ ".csv"

/-- Embedding of `get_data` (lines 34-46): resolve the lowercased path
and parse the file; on a missing file `pd.read_csv` raises
`FileNotFoundError`, modelled as `regionNotFound`. -/
def get_data (fs : FS) (county : String) : Except PyError Dataset :=
  match lookupFile fs.files (county_file county) with
  | some d => .ok d
  | none => .error .regionNotFound

/-- Chart mark kind, `mark_bar()` or `mark_line()`. -/
inductive Mark where
  | bar
  | line
deriving DecidableEq

/-- An `alt.Chart` as produced by the two plot functions.  The title
string `'Oversikt ... i ' + county + ' fra ' + start + ' til ' + end`
is kept component-wise: `county`, `t_start` and `t_end` are its three
variable components. -/
structure Chart where
  data : Dataset
  county : String
  t_start : Nat
  t_end : Nat
  mark : Mark
  x : String
  y : String
  tooltip : List String
  color : Option String
  width : Nat
deriving DecidableEq

/-- Lines 64-68: filter by the start bound when it is given, otherwise
resolve it from `data["Dato"].iloc[0]`, which raises `IndexError` on an
empty frame. -/
def apply_start (data : Dataset) : Option Nat → Except PyError (Dataset × Nat)
  | some s => .ok (data.filter (fun r => decide (s ≤ r.dato)), s)
  | none =>
    match data.head? with
    | some r => .ok (data, r.dato)
    | none => .error .indexError

/-- Lines 70-74: filter by the end bound when it is given, otherwise
resolve it from `data["Dato"].iloc[-1]` of the already start-filtered
frame, which raises `IndexError` when that frame is empty. -/
def apply_end (data : Dataset) : Option Nat → Except PyError (Dataset × Nat)
  | some e => .ok (data.filter (fun r => decide (r.dato ≤ e)), e)
  | none =>
    match data.getLast? with
    | some r => .ok (data, r.dato)
    | none => .error .indexError

/-- Embedding of `plot_reported_cases` (lines 49-89). -/
def plot_reported_cases (fs : FS) (county : String) (start? end? : Option Nat) :
    Except PyError Chart :=
  match get_data fs (if county ≠ "allcounties" then county else "allcounties") with
  | .error er => .error er
  | .ok data0 =>
    match apply_start data0 start? with
    | .error er => .error er
    | .ok (data1, start) =>
      match apply_end data1 end? with
      | .error er => .error er
      | .ok (data2, stop) =>
        .ok { data := data2
              county := if county ≠ "allcounties" then county else "Norge"
              t_start := start
              t_end := stop
              mark := .bar
              x := "Dato"
              y := "Nye tilfeller"
              tooltip := ["Dato", "Nye tilfeller"]
              color := none
              width := 1120 }

/-- Embedding of `plot_cumulative_cases` (lines 92-131); identical to
`plot_reported_cases` except for the mark, the y column, the tooltip
and the line color. -/
def plot_cumulative_cases (fs : FS) (county : String) (start? end? : Option Nat) :
    Except PyError Chart :=
  match get_data fs (if county ≠ "allcounties" then county else "allcounties") with
  | .error er => .error er
  | .ok data0 =>
    match apply_start data0 start? with
    | .error er => .error er
    | .ok (data1, start) =>
      match apply_end data1 end? with
      | .error er => .error er
      | .ok (data2, stop) =>
        .ok { data := data2
              county := if county ≠ "allcounties" then county else "Norge"
              t_start := start
              t_end := stop
              mark := .line
              x := "Dato"
              y := "Kumulativt antall"
              tooltip := ["Dato", "Kumulativt antall"]
              color := some "green"
              width := 1120 }

/-- Scale resolution metadata of a layered chart, from `resolve_scale`. -/
inductive YResolve where
  | independent
  | shared
deriving DecidableEq

/-- The result of `alt.layer(...).resolve_scale(y='independent')`;
`county` is the variable component of the combined title. -/
structure LayeredChart where
  layers : List Chart
  county : String
  yResolve : YResolve
deriving DecidableEq

/-- Embedding of `plot_both` (lines 134-150). -/
def plot_both (fs : FS) (county : String) (start? end? : Option Nat) :
    Except PyError LayeredChart :=
  match plot_reported_cases fs county start? end? with
  | .error er => .error er
  | .ok reported_bar =>
    match plot_cumulative_cases fs county start? end? with
    | .error er => .error er
    | .ok cumulative_line =>
      .ok { layers := [reported_bar, cumulative_line]
            county := if county = "allcounties" then "Norge" else county
            yResolve := .independent }

/-- Dataset invariant from the spec's data model: dates are ascending
along the record sequence. -/
def DateSorted (ds : Dataset) : Prop :=
  List.Pairwise (fun a b => a.dato ≤ b.dato) ds

/-- Date of the first record, when there is one. -/
def headDate (ds : Dataset) : Option Nat := ds.head?.map (fun r => r.dato)

/-- Date of the last record, when there is one. -/
def lastDate (ds : Dataset) : Option Nat := ds.getLast?.map (fun r => r.dato)

/-- The frame remaining after the start-bound block: the dataset itself
when no start bound was given, its `>= start` filtrate otherwise. -/
def start_filtered (ds : Dataset) : Option Nat → Dataset
  | none => ds
  | some s => ds.filter (fun r => decide (s ≤ r.dato))

theorem load_key_eq (c : String) :
    (if c ≠ "allcounties" then c else "allcounties") = c := by
  by_cases h : c = "allcounties" <;> simp [h]

theorem filter_ge_eq_dropWhile (s : Nat) (ds : Dataset) (h : DateSorted ds) :
    ds.filter (fun r => decide (s ≤ r.dato)) =
      ds.dropWhile (fun r => decide (r.dato < s)) := by
  induction ds with
  | nil => rfl
  | cons a t ih =>
    obtain ⟨ha, ht⟩ := List.pairwise_cons.mp h
    by_cases hs : s ≤ a.dato
    · rw [List.filter_cons_of_pos (by simpa using hs),
        List.dropWhile_cons_of_neg (by simpa using not_lt.mpr hs)]
      congr 1
      exact List.filter_eq_self.mpr (fun b hb => by simpa using le_trans hs (ha b hb))
    · push_neg at hs
      rw [List.filter_cons_of_neg (by simpa using not_le.mpr hs),
        List.dropWhile_cons_of_pos (by simpa using hs)]
      exact ih ht

theorem filter_le_eq_takeWhile (e : Nat) (ds : Dataset) (h : DateSorted ds) :
    ds.filter (fun r => decide (r.dato ≤ e)) =
      ds.takeWhile (fun r => decide (r.dato ≤ e)) := by
  induction ds with
  | nil => rfl
  | cons a t ih =>
    obtain ⟨ha, ht⟩ := List.pairwise_cons.mp h
    by_cases he : a.dato ≤ e
    · rw [List.filter_cons_of_pos (by simpa using he),
        List.takeWhile_cons_of_pos (by simpa using he)]
      congr 1
      exact ih ht
    · push_neg at he
      rw [List.filter_cons_of_neg (by simpa using not_le.mpr he),
        List.takeWhile_cons_of_neg (by simpa using not_le.mpr he)]
      exact List.filter_eq_nil_iff.mpr
        (fun b hb => by simpa using not_le.mpr (lt_of_lt_of_le he (ha b hb)))

theorem takeWhile_ne_nil_head? {α : Type} (p : α → Bool) (l : List α)
    (h : l.takeWhile p ≠ []) : (l.takeWhile p).head? = l.head? := by
  cases l with
  | nil => simp at h
  | cons a t =>
    by_cases hp : p a = true
    · rw [List.takeWhile_cons_of_pos hp]
      rfl
    · rw [List.takeWhile_cons_of_neg hp] at h
      exact absurd rfl h

theorem dropWhile_ne_nil_getLast? {α : Type} (p : α → Bool) (l : List α)
    (h : l.dropWhile p ≠ []) : (l.dropWhile p).getLast? = l.getLast? := by
  conv_rhs => rw [← List.takeWhile_append_dropWhile p l]
  rw [List.getLast?_append]
  cases hd : (l.dropWhile p).getLast? with
  | none => exact absurd (List.getLast?_eq_none_iff.mp hd) h
  | some x => rfl

/-- Concrete record used by the witnesses: date code 0. -/
def rec0 : CaseRecord := ⟨0, 1, 1⟩

/-- Concrete record used by the witnesses: date code 1. -/
def rec1 : CaseRecord := ⟨1, 2, 3⟩

/-- Witness directory holding a two-record Oslo dataset. -/
def fsOslo : FS :=
  ⟨[("data_files_updated/antall-meldte-covid-19-oslo.csv", [rec0, rec1])]⟩

/-- Witness directory holding an empty Oslo dataset. -/
def fsEmptyOslo : FS :=
  ⟨[("data_files_updated/antall-meldte-covid-19-oslo.csv", [])]⟩

/-- Witness directory holding a two-record aggregate dataset. -/
def fsAgg : FS :=
  ⟨[("data_files_updated/antall-meldte-covid-19-allcounties.csv", [rec0, rec1])]⟩

/-- Witness directory with no files at all. -/
def fsNone : FS := ⟨[]⟩

theorem plot_reported_eq (fs : FS) (county : String) (ds : Dataset)
    (hload : get_data fs county = .ok ds) (s? e? : Option Nat) :
    plot_reported_cases fs county s? e? =
      match apply_start ds s? with
      | .error er => .error er
      | .ok (data1, start) =>
        match apply_end data1 e? with
        | .error er => .error er
        | .ok (data2, stop) =>
          .ok { data := data2
                county := if county ≠ "allcounties" then county else "Norge"
                t_start := start
                t_end := stop
                mark := .bar
                x := "Dato"
                y := "Nye tilfeller"
                tooltip := ["Dato", "Nye tilfeller"]
                color := none
                width := 1120 } := by
  unfold plot_reported_cases
  rw [load_key_eq, hload]

theorem plot_cumulative_eq (fs : FS) (county : String) (ds : Dataset)
    (hload : get_data fs county = .ok ds) (s? e? : Option Nat) :
    plot_cumulative_cases fs county s? e? =
      match apply_start ds s? with
      | .error er => .error er
      | .ok (data1, start) =>
        match apply_end data1 e? with
        | .error er => .error er
        | .ok (data2, stop) =>
          .ok { data := data2
                county := if county ≠ "allcounties" then county else "Norge"
                t_start := start
                t_end := stop
                mark := .line
                x := "Dato"
                y := "Kumulativt antall"
                tooltip := ["Dato", "Kumulativt antall"]
                color := some "green"
                width := 1120 } := by
  unfold plot_cumulative_cases
  rw [load_key_eq, hload]

/-- Every chart produced by `plot_reported_cases` is a bar chart of
`Nye tilfeller` titled with the branch-selected display county. -/
theorem plot_reported_fields (fs : FS) (county : String) (s? e? : Option Nat)
    (ch : Chart) (h : plot_reported_cases fs county s? e? = .ok ch) :
    ch.mark = Mark.bar ∧ ch.y = "Nye tilfeller" ∧
    ch.county = (if county ≠ "allcounties" then county else "Norge") := by
  unfold plot_reported_cases at h
  split at h
  · exact absurd h (by simp)
  · split at h
    · exact absurd h (by simp)
    · split at h
      · exact absurd h (by simp)
      · obtain rfl := (Except.ok.injEq _ _).mp h.symm
        exact ⟨rfl, rfl, rfl⟩

/-- Every chart produced by `plot_cumulative_cases` is a line chart of
`Kumulativt antall` titled with the branch-selected display county. -/
theorem plot_cumulative_fields (fs : FS) (county : String) (s? e? : Option Nat)
    (ch : Chart) (h : plot_cumulative_cases fs county s? e? = .ok ch) :
    ch.mark = Mark.line ∧ ch.y = "Kumulativt antall" ∧
    ch.county = (if county ≠ "allcounties" then county else "Norge") := by
  unfold plot_cumulative_cases at h
  split at h
  · exact absurd h (by simp)
  · split at h
    · exact absurd h (by simp)
    · split at h
      · exact absurd h (by simp)
      · obtain rfl := (Except.ok.injEq _ _).mp h.symm
        exact ⟨rfl, rfl, rfl⟩

/-- C1.  With explicit bounds `s ≤ e` on a loaded dataset satisfying the
ascending-dates invariant, `plot_reported_cases` succeeds, its data
slice holds exactly the records with `s ≤ dato ≤ e`, and that slice is
a contiguous sub-sequence (`∃ pre post, ds = pre ++ slice ++ post`) of
the dataset's original ordering. -/
theorem plot_reported_range_exact
    (fs : FS) (county : String) (s e : Nat) (ds : Dataset)
    (hload : get_data fs county = .ok ds)
    (hsorted : DateSorted ds) (hse : s ≤ e) :
    ∃ ch, plot_reported_cases fs county (some s) (some e) = .ok ch ∧
      (∀ r, r ∈ ch.data ↔ (r ∈ ds ∧ s ≤ r.dato ∧ r.dato ≤ e)) ∧
      (∃ pre post, ds = pre ++ ch.data ++ post) := by
  have hplot : plot_reported_cases fs county (some s) (some e) = .ok
      { data := (ds.filter (fun r => decide (s ≤ r.dato))).filter
          (fun r => decide (r.dato ≤ e))
        county := if county ≠ "allcounties" then county else "Norge"
        t_start := s
        t_end := e
        mark := .bar
        x := "Dato"
        y := "Nye tilfeller"
        tooltip := ["Dato", "Nye tilfeller"]
        color := none
        width := 1120 } := by
    rw [plot_reported_eq fs county ds hload]
    rfl
  refine ⟨_, hplot, ?_, ?_⟩
  · intro r
    show r ∈ (ds.filter (fun r => decide (s ≤ r.dato))).filter
        (fun r => decide (r.dato ≤ e)) ↔ r ∈ ds ∧ s ≤ r.dato ∧ r.dato ≤ e
    simp only [List.mem_filter, decide_eq_true_eq]
    tauto
  · have hsorted1 : DateSorted (ds.filter (fun r => decide (s ≤ r.dato))) :=
      List.Pairwise.sublist (List.filter_sublist ds) hsorted
    have hdata : (ds.filter (fun r => decide (s ≤ r.dato))).filter
        (fun r => decide (r.dato ≤ e)) =
        (ds.dropWhile (fun r => decide (r.dato < s))).takeWhile
          (fun r => decide (r.dato ≤ e)) := by
      rw [filter_le_eq_takeWhile e _ hsorted1, filter_ge_eq_dropWhile s ds hsorted]
    refine ⟨ds.takeWhile (fun r => decide (r.dato < s)),
      (ds.dropWhile (fun r => decide (r.dato < s))).dropWhile
        (fun r => decide (r.dato ≤ e)), ?_⟩
    show ds = _ ++ ((ds.filter (fun r => decide (s ≤ r.dato))).filter
        (fun r => decide (r.dato ≤ e))) ++ _
    rw [hdata, List.append_assoc, List.takeWhile_append_dropWhile,
      List.takeWhile_append_dropWhile]

/-- C1 (witness). -/
theorem plot_reported_range_exact_witness :
    ∃ ch, plot_reported_cases fsOslo "oslo" (some 0) (some 5) = .ok ch ∧
      (∀ r, r ∈ ch.data ↔ (r ∈ [rec0, rec1] ∧ 0 ≤ r.dato ∧ r.dato ≤ 5)) ∧
      (∃ pre post, [rec0, rec1] = pre ++ ch.data ++ post) :=
  plot_reported_range_exact fsOslo "oslo" 0 5 [rec0, rec1] (by rfl)
    (by simp [DateSorted, rec0, rec1]) (by decide)

/-- C3 (counterexample).  The claim says an empty dataset produces an
empty chart with no error; with both bounds omitted the code instead
raises `IndexError` from `data["Dato"].iloc[0]`. -/
theorem plot_reported_empty_dataset_error :
    get_data fsEmptyOslo "oslo" = .ok [] ∧
    plot_reported_cases fsEmptyOslo "oslo" none none = .error PyError.indexError :=
  ⟨by rfl, by rfl⟩

/-- C3 (amended).  When both bounds are supplied, an inverted range
(`e < s`) or an empty dataset yields a chart with zero data points and
the supplied bounds as title components, with no error; but on an empty
dataset with both bounds omitted the operation raises `IndexError`
instead of returning an empty chart. -/
theorem plot_reported_empty_slice
    (fs : FS) (county : String) (ds : Dataset) (s e : Nat)
    (hload : get_data fs county = .ok ds)
    (h : e < s ∨ ds = []) :
    (∃ ch, plot_reported_cases fs county (some s) (some e) = .ok ch ∧
      ch.data = [] ∧ ch.t_start = s ∧ ch.t_end = e) ∧
    (ds = [] → plot_reported_cases fs county none none = .error PyError.indexError) := by
  constructor
  · have hnil : (ds.filter (fun r => decide (s ≤ r.dato))).filter
        (fun r => decide (r.dato ≤ e)) = [] := by
      rcases h with h | h
      · refine List.filter_eq_nil_iff.mpr (fun b hb => ?_)
        obtain ⟨_, hbs⟩ := List.mem_filter.mp hb
        simp only [decide_eq_true_eq] at hbs ⊢
        exact not_le.mpr (lt_of_lt_of_le h hbs)
      · rw [h]
        rfl
    have hplot : plot_reported_cases fs county (some s) (some e) = .ok
        { data := (ds.filter (fun r => decide (s ≤ r.dato))).filter
            (fun r => decide (r.dato ≤ e))
          county := if county ≠ "allcounties" then county else "Norge"
          t_start := s
          t_end := e
          mark := .bar
          x := "Dato"
          y := "Nye tilfeller"
          tooltip := ["Dato", "Nye tilfeller"]
          color := none
          width := 1120 } := by
      rw [plot_reported_eq fs county ds hload]
      rfl
    exact ⟨_, hplot, hnil, rfl, rfl⟩
  · intro h0
    rw [plot_reported_eq fs county ds hload, h0]
    rfl

/-- C3 (witness for the amended theorem). -/
theorem plot_reported_empty_slice_witness :
    ∃ ch, plot_reported_cases fsOslo "oslo" (some 5) (some 3) = .ok ch ∧
      ch.data = [] ∧ ch.t_start = 5 ∧ ch.t_end = 3 :=
  (plot_reported_empty_slice fsOslo "oslo" [rec0, rec1] 5 3 (by rfl)
    (Or.inl (by decide))).1

/-- C2 (counterexample).  The claim says an omitted end bound always
resolves to the dataset's last record's date regardless of the start
bound; with a supplied start bound past every record the code instead
raises `IndexError` from `data["Dato"].iloc[-1]` on the emptied frame. -/
theorem plot_reported_end_default_error :
    get_data fsOslo "oslo" = .ok [rec0, rec1] ∧
    lastDate [rec0, rec1] = some 1 ∧
    plot_reported_cases fsOslo "oslo" (some 5) none = .error PyError.indexError :=
  ⟨by rfl, by rfl, by rfl⟩

/-- C2 (amended).  On a nonempty date-sorted dataset: an omitted start
bound resolves to the first record's date for any end bound, and the
slice's first (minimum) date equals the dataset's first date whenever
the slice is nonempty; an omitted end bound resolves to the last
record's date provided the start-filtered frame is nonempty (in
particular whenever start is also omitted); if a supplied start bound
empties the frame, the operation raises `IndexError` instead. -/
theorem plot_reported_default_bounds
    (fs : FS) (county : String) (ds : Dataset)
    (hload : get_data fs county = .ok ds) (hsorted : DateSorted ds) :
    (∀ e?, ds ≠ [] →
      ∃ ch, plot_reported_cases fs county none e? = .ok ch ∧
        some ch.t_start = headDate ds ∧ DateSorted ch.data ∧
        (ch.data ≠ [] → headDate ch.data = headDate ds)) ∧
    (∀ s?, start_filtered ds s? ≠ [] →
      ∃ ch, plot_reported_cases fs county s? none = .ok ch ∧
        some ch.t_end = lastDate ds) ∧
    (∀ s, start_filtered ds (some s) = [] →
      plot_reported_cases fs county (some s) none = .error PyError.indexError) := by
  refine ⟨?_, ?_, ?_⟩
  · intro e? hne
    obtain ⟨a, t, rfl⟩ := List.exists_cons_of_ne_nil hne
    cases e? with
    | none =>
      cases hx : (a :: t).getLast? with
      | none => exact absurd (List.getLast?_eq_none_iff.mp hx) hne
      | some x =>
        have hplot : plot_reported_cases fs county none none = .ok
            { data := a :: t
              county := if county ≠ "allcounties" then county else "Norge"
              t_start := a.dato
              t_end := x.dato
              mark := .bar
              x := "Dato"
              y := "Nye tilfeller"
              tooltip := ["Dato", "Nye tilfeller"]
              color := none
              width := 1120 } := by
          rw [plot_reported_eq fs county (a :: t) hload]
          simp only [apply_start, apply_end, List.head?_cons, hx]
        refine ⟨_, hplot, by simp [headDate], hsorted, fun _ => rfl⟩
    | some e =>
      have hplot : plot_reported_cases fs county none (some e) = .ok
          { data := (a :: t).filter (fun r => decide (r.dato ≤ e))
            county := if county ≠ "allcounties" then county else "Norge"
            t_start := a.dato
            t_end := e
            mark := .bar
            x := "Dato"
            y := "Nye tilfeller"
            tooltip := ["Dato", "Nye tilfeller"]
            color := none
            width := 1120 } := by
        rw [plot_reported_eq fs county (a :: t) hload]
        rfl
      refine ⟨_, hplot, by simp [headDate], ?_, ?_⟩
      · exact List.Pairwise.sublist (List.filter_sublist _) hsorted
      · intro hch
        have hch' : (a :: t).filter (fun r => decide (r.dato ≤ e)) ≠ [] := hch
        show headDate ((a :: t).filter (fun r => decide (r.dato ≤ e))) = headDate (a :: t)
        unfold headDate
        rw [filter_le_eq_takeWhile e (a :: t) hsorted] at hch' ⊢
        rw [takeWhile_ne_nil_head? _ _ hch']
  · intro s? hne
    cases s? with
    | none =>
      have hne' : ds ≠ [] := hne
      obtain ⟨a, t, rfl⟩ := List.exists_cons_of_ne_nil hne'
      cases hx : (a :: t).getLast? with
      | none => exact absurd (List.getLast?_eq_none_iff.mp hx) hne'
      | some x =>
        have hplot : plot_reported_cases fs county none none = .ok
            { data := a :: t
              county := if county ≠ "allcounties" then county else "Norge"
              t_start := a.dato
              t_end := x.dato
              mark := .bar
              x := "Dato"
              y := "Nye tilfeller"
              tooltip := ["Dato", "Nye tilfeller"]
              color := none
              width := 1120 } := by
          rw [plot_reported_eq fs county (a :: t) hload]
          simp only [apply_start, apply_end, List.head?_cons, hx]
        refine ⟨_, hplot, ?_⟩
        show some x.dato = lastDate (a :: t)
        unfold lastDate
        rw [hx]
        rfl
    | some s =>
      have hne' : ds.filter (fun r => decide (s ≤ r.dato)) ≠ [] := hne
      cases hx : (ds.filter (fun r => decide (s ≤ r.dato))).getLast? with
      | none => exact absurd (List.getLast?_eq_none_iff.mp hx) hne'
      | some x =>
        have hplot : plot_reported_cases fs county (some s) none = .ok
            { data := ds.filter (fun r => decide (s ≤ r.dato))
              county := if county ≠ "allcounties" then county else "Norge"
              t_start := s
              t_end := x.dato
              mark := .bar
              x := "Dato"
              y := "Nye tilfeller"
              tooltip := ["Dato", "Nye tilfeller"]
              color := none
              width := 1120 } := by
          rw [plot_reported_eq fs county ds hload]
          simp only [apply_start, apply_end, hx]
        refine ⟨_, hplot, ?_⟩
        have hdrop : ds.dropWhile (fun r => decide (r.dato < s)) ≠ [] := by
          rw [← filter_ge_eq_dropWhile s ds hsorted]
          exact hne'
        have hgl : (ds.filter (fun r => decide (s ≤ r.dato))).getLast? = ds.getLast? := by
          rw [filter_ge_eq_dropWhile s ds hsorted]
          exact dropWhile_ne_nil_getLast? _ _ hdrop
        show some x.dato = lastDate ds
        unfold lastDate
        rw [← hgl, hx]
        rfl
  · intro s hnil
    have hnil' : ds.filter (fun r => decide (s ≤ r.dato)) = [] := hnil
    rw [plot_reported_eq fs county ds hload]
    simp only [apply_start, apply_end, hnil']
    rfl

/-- C2 (witness for the amended theorem). -/
theorem plot_reported_default_bounds_witness :
    ∃ ch, plot_reported_cases fsOslo "oslo" none none = .ok ch ∧
      some ch.t_start = headDate [rec0, rec1] ∧
      some ch.t_end = lastDate [rec0, rec1] := by
  obtain ⟨h1, h2, _⟩ := plot_reported_default_bounds fsOslo "oslo" [rec0, rec1]
    (by rfl) (by simp [DateSorted, rec0, rec1])
  obtain ⟨ch, hch, hst, _, _⟩ := h1 none (by simp)
  obtain ⟨ch2, hch2, hen⟩ := h2 none (by simp [start_filtered])
  rw [hch] at hch2
  obtain rfl := (Except.ok.injEq _ _).mp hch2
  exact ⟨ch, hch, hst, hen⟩

/-- C6.  For the region identifier `"allcounties"` with both bounds
omitted and a nonempty aggregate dataset, all three chart builders
succeed, the resolved bounds equal the aggregate dataset's first and
last dates, and every title's county component is the display name
`"Norge"`, not the literal identifier. -/
theorem plot_allcounties_norge
    (fs : FS) (ds : Dataset)
    (hload : get_data fs "allcounties" = .ok ds) (hne : ds ≠ []) :
    (∃ ch, plot_reported_cases fs "allcounties" none none = .ok ch ∧
      ch.county = "Norge" ∧ some ch.t_start = headDate ds ∧
      some ch.t_end = lastDate ds) ∧
    (∃ ch, plot_cumulative_cases fs "allcounties" none none = .ok ch ∧
      ch.county = "Norge" ∧ some ch.t_start = headDate ds ∧
      some ch.t_end = lastDate ds) ∧
    (∃ lc, plot_both fs "allcounties" none none = .ok lc ∧ lc.county = "Norge" ∧
      lc.layers.map Chart.county = ["Norge", "Norge"]) := by
  obtain ⟨a, t, rfl⟩ := List.exists_cons_of_ne_nil hne
  cases hx : (a :: t).getLast? with
  | none => exact absurd (List.getLast?_eq_none_iff.mp hx) hne
  | some x =>
  have hrep : plot_reported_cases fs "allcounties" none none = .ok
      { data := a :: t
        county := if ("allcounties" : String) ≠ "allcounties" then "allcounties" else "Norge"
        t_start := a.dato
        t_end := x.dato
        mark := .bar
        x := "Dato"
        y := "Nye tilfeller"
        tooltip := ["Dato", "Nye tilfeller"]
        color := none
        width := 1120 } := by
    rw [plot_reported_eq fs "allcounties" (a :: t) hload]
    simp only [apply_start, apply_end, List.head?_cons, hx]
  have hcum : plot_cumulative_cases fs "allcounties" none none = .ok
      { data := a :: t
        county := if ("allcounties" : String) ≠ "allcounties" then "allcounties" else "Norge"
        t_start := a.dato
        t_end := x.dato
        mark := .line
        x := "Dato"
        y := "Kumulativt antall"
        tooltip := ["Dato", "Kumulativt antall"]
        color := some "green"
        width := 1120 } := by
    rw [plot_cumulative_eq fs "allcounties" (a :: t) hload]
    simp only [apply_start, apply_end, List.head?_cons, hx]
  refine ⟨⟨_, hrep, by simp, by simp [headDate], by simp [lastDate, hx]⟩,
    ⟨_, hcum, by simp, by simp [headDate], by simp [lastDate, hx]⟩, ?_⟩
  have hboth : plot_both fs "allcounties" none none = .ok
      { layers :=
          [{ data := a :: t
             county := if ("allcounties" : String) ≠ "allcounties" then "allcounties" else "Norge"
             t_start := a.dato
             t_end := x.dato
             mark := .bar
             x := "Dato"
             y := "Nye tilfeller"
             tooltip := ["Dato", "Nye tilfeller"]
             color := none
             width := 1120 },
           { data := a :: t
             county := if ("allcounties" : String) ≠ "allcounties" then "allcounties" else "Norge"
             t_start := a.dato
             t_end := x.dato
             mark := .line
             x := "Dato"
             y := "Kumulativt antall"
             tooltip := ["Dato", "Kumulativt antall"]
             color := some "green"
             width := 1120 }]
        county := if ("allcounties" : String) = "allcounties" then "Norge" else "allcounties"
        yResolve := .independent } := by
    unfold plot_both
    rw [hrep, hcum]
  exact ⟨_, hboth, by simp, by simp⟩

/-- C6 (witness). -/
theorem plot_allcounties_norge_witness :
    ∃ ch, plot_reported_cases fsAgg "allcounties" none none = .ok ch ∧
      ch.county = "Norge" ∧ some ch.t_start = headDate [rec0, rec1] ∧
      some ch.t_end = lastDate [rec0, rec1] :=
  (plot_allcounties_norge fsAgg [rec0, rec1] (by rfl) (by simp)).1

/-- C7.  Region lookup is case-insensitive: the backing file path is
built from the lowercased identifier, so any two identifiers with the
same lowercasing resolve to the same path and load the same data. -/
theorem get_data_case_insensitive (c₁ c₂ : String) (h : pyLower c₁ = pyLower c₂) :
    county_file c₁ = county_file c₂ ∧ ∀ fs, get_data fs c₁ = get_data fs c₂ := by
  have hf : county_file c₁ = county_file c₂ := by
    unfold county_file
    rw [h]
  exact ⟨hf, fun fs => by unfold get_data; rw [hf]⟩

/-- C7 (witness). -/
theorem get_data_case_insensitive_witness :
    county_file "OSLO" = county_file "oslo" ∧
    get_data fsOslo "OSLO" = get_data fsOslo "oslo" := by
  have h := get_data_case_insensitive "OSLO" "oslo" (by rfl)
  exact ⟨h.1, h.2 fsOslo⟩

/-- C8.  When no backing file exists for the resolved path, `get_data`
fails with the region-not-found error, and each of the three chart
builders propagates exactly that error to the caller. -/
theorem region_not_found_propagates
    (fs : FS) (c : String) (s? e? : Option Nat)
    (h : lookupFile fs.files (county_file c) = none) :
    get_data fs c = .error PyError.regionNotFound ∧
    plot_reported_cases fs c s? e? = .error PyError.regionNotFound ∧
    plot_cumulative_cases fs c s? e? = .error PyError.regionNotFound ∧
    plot_both fs c s? e? = .error PyError.regionNotFound := by
  have hg : get_data fs c = .error PyError.regionNotFound := by
    unfold get_data
    rw [h]
  have hr : plot_reported_cases fs c s? e? = .error PyError.regionNotFound := by
    unfold plot_reported_cases
    rw [load_key_eq, hg]
  have hcu : plot_cumulative_cases fs c s? e? = .error PyError.regionNotFound := by
    unfold plot_cumulative_cases
    rw [load_key_eq, hg]
  have hb : plot_both fs c s? e? = .error PyError.regionNotFound := by
    unfold plot_both
    rw [hr]
  exact ⟨hg, hr, hcu, hb⟩

/-- C8 (witness). -/
theorem region_not_found_propagates_witness :
    get_data fsNone "NonExistentRegion" = .error PyError.regionNotFound ∧
    plot_both fsNone "NonExistentRegion" none none = .error PyError.regionNotFound := by
  have h := region_not_found_propagates fsNone "NonExistentRegion" none none (by rfl)
  exact ⟨h.1, h.2.2.2⟩

/-- C9.  Every layered chart built by `plot_both` carries independent
y-scale resolution in its scale-resolution metadata, and its two layers
are the bar spec over `Nye tilfeller` and the line spec over
`Kumulativt antall`. -/
theorem plot_both_independent_scales
    (fs : FS) (c : String) (s? e? : Option Nat) (lc : LayeredChart)
    (h : plot_both fs c s? e? = .ok lc) :
    lc.yResolve = YResolve.independent ∧
    ∃ chBar chLine, lc.layers = [chBar, chLine] ∧
      chBar.mark = Mark.bar ∧ chBar.y = "Nye tilfeller" ∧
      chLine.mark = Mark.line ∧ chLine.y = "Kumulativt antall" := by
  unfold plot_both at h
  split at h
  · exact absurd h (by simp)
  · rename_i rep hrep
    split at h
    · exact absurd h (by simp)
    · rename_i cum hcum
      obtain rfl := (Except.ok.injEq _ _).mp h
      obtain ⟨hm, hy, _⟩ := plot_reported_fields fs c s? e? rep hrep
      obtain ⟨hm2, hy2, _⟩ := plot_cumulative_fields fs c s? e? cum hcum
      exact ⟨rfl, rep, cum, rfl, hm, hy, hm2, hy2⟩

/-- C9 (witness). -/
theorem plot_both_independent_scales_witness :
    ∃ lc, plot_both fsOslo "oslo" none none = .ok lc ∧
      lc.yResolve = YResolve.independent := by
  have hlc : plot_both fsOslo "oslo" none none = .ok
      { layers :=
          [{ data := [rec0, rec1]
             county := "oslo"
             t_start := 0
             t_end := 1
             mark := .bar
             x := "Dato"
             y := "Nye tilfeller"
             tooltip := ["Dato", "Nye tilfeller"]
             color := none
             width := 1120 },
           { data := [rec0, rec1]
             county := "oslo"
             t_start := 0
             t_end := 1
             mark := .line
             x := "Dato"
             y := "Kumulativt antall"
             tooltip := ["Dato", "Kumulativt antall"]
             color := some "green"
             width := 1120 }]
        county := "oslo"
        yResolve := .independent } := by rfl
  exact ⟨_, hlc, (plot_both_independent_scales fsOslo "oslo" none none _ hlc).1⟩

/-- C10.  The `"Norge"` display-name override fires only on the exact
lowercase identifier `"allcounties"`: any other casing still loads the
aggregate backing file through lowercasing, but every chart title
carries the caller's literal identifier, not `"Norge"`. -/
theorem plot_aggregate_casing
    (fs : FS) (c : String) (s? e? : Option Nat)
    (hc : c ≠ "allcounties") (hlow : pyLower c = "allcounties") :
    get_data fs c = get_data fs "allcounties" ∧
    (∀ ch, plot_reported_cases fs c s? e? = .ok ch → ch.county = c) ∧
    (∀ ch, plot_cumulative_cases fs c s? e? = .ok ch → ch.county = c) ∧
    (∀ lc, plot_both fs c s? e? = .ok lc → lc.county = c) ∧
    c ≠ "Norge" := by
  refine ⟨?_, ?_, ?_, ?_, ?_⟩
  · have hf : county_file c = county_file "allcounties" := by
      unfold county_file
      rw [hlow]
      rfl
    unfold get_data
    rw [hf]
  · intro ch h
    rw [(plot_reported_fields fs c s? e? ch h).2.2, if_pos hc]
  · intro ch h
    rw [(plot_cumulative_fields fs c s? e? ch h).2.2, if_pos hc]
  · intro lc h
    unfold plot_both at h
    split at h
    · exact absurd h (by simp)
    · split at h
      · exact absurd h (by simp)
      · obtain rfl := (Except.ok.injEq _ _).mp h
        show (if c = "allcounties" then "Norge" else c) = c
        rw [if_neg hc]
  · intro he
    rw [he] at hlow
    exact absurd hlow (by decide)

/-- C10 (witness). -/
theorem plot_aggregate_casing_witness :
    get_data fsAgg "AllCounties" = get_data fsAgg "allcounties" ∧
    ("AllCounties" : String) ≠ "Norge" ∧
    ∃ ch, plot_reported_cases fsAgg "AllCounties" none none = .ok ch ∧
      ch.county = "AllCounties" := by
  have h := plot_aggregate_casing fsAgg "AllCounties" none none (by decide) (by rfl)
  have hch : plot_reported_cases fsAgg "AllCounties" none none = .ok
      { data := [rec0, rec1]
        county := "AllCounties"
        t_start := 0
        t_end := 1
        mark := .bar
        x := "Dato"
        y := "Nye tilfeller"
        tooltip := ["Dato", "Nye tilfeller"]
        color := none
        width := 1120 } := by rfl
  exact ⟨h.1, h.2.2.2.2, _, hch, h.2.1 _ hch⟩

end WebViz
